import Mathlib

/-!
Verification of the CV Tailor app (`app.py`).

The application is a single streaming glue function `generate` plus a
stateless `clear_all` reset. External collaborators — the request
validator `utils.validate_key`, the text extractor
`utils.convert_content_to_gr_type`, and the hosted generation service —
are modelled as parameters: the validator by its returned
`Option String`, the extractor by a function `conv : α → List String`
over an opaque content type `α`, and the generation service by the
finite prefix of chunks it emits together with an optional exception
that aborts the iterator afterwards.

A yielded value (`StreamChunk = str | dict` in the source) is either a
plain string message or a `gr.update(...)` dictionary; `gr.update`
carries a `value` and, when given, an `append` flag (`none` models an
absent key, whose display semantics is a full replacement).
-/

namespace CVTailor

/-- Characters removed by Python `str.strip()` on ASCII input. -/
def pyIsSpace (c : Char) : Bool :=
  c == ' ' || c == '\t' || c == '\n' || c == '\r' || c == '\x0b' || c == '\x0c'

/-- Python `s.strip()`: drop leading and trailing whitespace. -/
def pyStrip (s : String) : String :=
  String.mk (((s.toList.dropWhile pyIsSpace).reverse.dropWhile pyIsSpace).reverse)

/-- Truthiness test `not s.strip()` from the source: `s` is empty or whitespace-only. -/
def isBlank (s : String) : Bool :=
  pyStrip s == ""

/-- Message yielded when both inputs are blank (`app.py` line 45). -/
def bothMissingMsg : String :=
  "Please provide a job description and resume template to tailor."

/-- Message yielded when only the job description is blank (`app.py` line 49). -/
def jdMissingMsg : String :=
  "Please paste the job description before tailoring your resume."

/-- Message yielded when only the resume template is blank (`app.py` line 53). -/
def resumeMissingMsg : String :=
  "Please paste your current resume template before tailoring."

/-- Generic apology/retry message of the broad exception handler (`app.py` lines 117-122). -/
def genericErrorMsg : String :=
  "We ran into an issue while tailoring the resume. Please try again in a moment."

/-- Fixed system instruction text (`app.py` lines 62-68), independent of the inputs. -/
def systemInstruction : String :=
  "You are an expert resume optimization specialist. Tailor the resume to closely match the job description (~80–85% alignment) while keeping a professional tone and clean structure. If needed, synthesize missing but plausible details, and resolve conflicts in favor of relevance. Return only the revised resume."

/-- User message built by string interpolation (`app.py` lines 70-77). -/
def userPrompt (job_description current_resume_template : String) : String :=
  "JOB DESCRIPTION:\n" ++ job_description ++ "\n\n" ++
    "CURRENT RESUME TEMPLATE:\n" ++ current_resume_template ++ "\n"

/-- One value yielded by `generate` (`StreamChunk = str | dict`): a plain
string, or a `gr.update` dictionary with a `value` and an optional
`append` key (`none` = key absent). -/
inductive StreamChunk where
  | text (s : String)
  | update (value : String) (append : Option Bool)
deriving Repr, DecidableEq

/-- One candidate of a response chunk; `content` is `none` when
`candidate.content` is falsy (absent). -/
structure Candidate (α : Type) where
  content : Option α
deriving Repr, DecidableEq

/-- One response chunk; `chunk.candidates` falsy (`None` or `[]`) is the
empty list, and a listed candidate may itself be `None`. -/
structure Chunk (α : Type) where
  candidates : List (Option (Candidate α))
deriving Repr, DecidableEq

/-- The generation-service iterator: the chunks it emits, then either a
normal end (`raises = none`) or an exception with detail `exc`. -/
structure Upstream (α : Type) where
  chunks : List (Chunk α)
  raises : Option String
deriving Repr, DecidableEq

/-- The prompt payload sent to the generation service. -/
structure PromptPayload where
  system_instruction : String
  user_message : String
deriving Repr, DecidableEq

/-- Observable outcome of one `generate` call: the yielded sequence, the
prompt sent to the generation service (`none` when no service call was
made), and the `(message, exc_info)` entries written by `logger.exception`. -/
structure GenerateResult where
  updates : List StreamChunk
  sentPrompt : Option PromptPayload
  logs : List (String × String)
deriving Repr, DecidableEq

/-- Text pieces one chunk contributes (`app.py` lines 101-113): skip a
chunk with no candidates, a `None` first candidate, or a first candidate
without content; otherwise extract text from the first candidate only and
drop falsy (empty) pieces. -/
def chunkPieces {α : Type} (conv : α → List String) (chunk : Chunk α) : List String :=
  match chunk.candidates with
  | [] => []
  | candidate :: _ =>
    match candidate with
    | none => []
    | some c =>
      match c.content with
      | none => []
      | some content => (conv content).filter (fun piece => piece != "")

/-- Updates yielded by the streaming loop (`app.py` lines 96-114): one
`gr.update(value=piece, append=True)` per kept piece, in arrival order. -/
def streamUpdates {α : Type} (conv : α → List String) (chunks : List (Chunk α)) :
    List StreamChunk :=
  chunks.flatMap fun chunk =>
    (chunkPieces conv chunk).map fun piece => StreamChunk.update piece (some true)

/-- The `generate` function of `app.py` (lines 33-122), with the external
collaborators passed in: `conv` models `utils.convert_content_to_gr_type`,
`validate_key_result` the value of `utils.validate_key(request)`, and
`upstream` the generation-service stream. -/
def generate {α : Type} (conv : α → List String)
    (validate_key_result : Option String) (upstream : Upstream α)
    (job_description current_resume_template : String) : GenerateResult :=
  match validate_key_result with
  | some v => ⟨[StreamChunk.text v], none, []⟩
  | none =>
    if isBlank job_description && isBlank current_resume_template then
      ⟨[StreamChunk.text bothMissingMsg], none, []⟩
    else if isBlank job_description then
      ⟨[StreamChunk.text jdMissingMsg], none, []⟩
    else if isBlank current_resume_template then
      ⟨[StreamChunk.text resumeMissingMsg], none, []⟩
    else
      let prompt : PromptPayload :=
        ⟨systemInstruction, userPrompt job_description current_resume_template⟩
      match upstream.raises with
      | none => ⟨streamUpdates conv upstream.chunks, some prompt, []⟩
      | some exc =>
        ⟨streamUpdates conv upstream.chunks ++ [StreamChunk.update genericErrorMsg none],
          some prompt, [("Failed to generate tailored resume", exc)]⟩

/-- The `clear_all` function of `app.py` (lines 125-127). -/
def clear_all : String × String × String :=
  ("", "", "")

/-- Clicking the Clear All button from an arbitrary prior state of the
three fields: the wiring passes no inputs (`inputs=[]`), so the action
ignores the prior state and returns `clear_all`. -/
def clearAction (_prior : String × String × String) : String × String × String :=
  clear_all

/-- Content extractor at the fragment-text level: each content object is
one text piece (the view the spec's fragment examples use). -/
def idConv (s : String) : List String := [s]

/-- A chunk carrying a single candidate whose content is the given
fragment text. -/
def mkChunk (fragment : String) : Chunk String :=
  ⟨[some ⟨some fragment⟩]⟩

/-- A stream delivering one fragment per chunk. -/
def fragStream (fragments : List String) : List (Chunk String) :=
  fragments.map mkChunk

/-- Display-state semantics of one update, per the spec's DisplayUpdate
contract: an append update extends the shown text; a plain string or an
update without `append=True` replaces it. -/
def applyUpdate (display : String) (u : StreamChunk) : String :=
  match u with
  | StreamChunk.text s => s
  | StreamChunk.update v (some true) => display ++ v
  | StreamChunk.update v _ => v

/-- Display contents after consuming a sequence of updates from an empty
output box. -/
def renderAll (us : List StreamChunk) : String :=
  us.foldl applyUpdate ""

/-- Helper: outcome of `generate` on valid inputs when the upstream
iterator ends normally. -/
theorem generate_ok {α : Type} (conv : α → List String) (chunks : List (Chunk α))
    (jd res : String) (hjd : isBlank jd = false) (hres : isBlank res = false) :
    generate conv none ⟨chunks, none⟩ jd res =
      ⟨streamUpdates conv chunks, some ⟨systemInstruction, userPrompt jd res⟩, []⟩ := by
  simp [generate, hjd, hres]

/-- Helper: outcome of `generate` on valid inputs when the upstream
iterator raises after emitting `chunks`. -/
theorem generate_raise {α : Type} (conv : α → List String) (chunks : List (Chunk α))
    (exc jd res : String) (hjd : isBlank jd = false) (hres : isBlank res = false) :
    generate conv none ⟨chunks, some exc⟩ jd res =
      ⟨streamUpdates conv chunks ++ [StreamChunk.update genericErrorMsg none],
        some ⟨systemInstruction, userPrompt jd res⟩,
        [("Failed to generate tailored resume", exc)]⟩ := by
  simp [generate, hjd, hres]

/-- Helper: on a one-fragment-per-chunk stream the loop keeps exactly the
non-empty fragments, in order. -/
theorem streamUpdates_fragStream (fragments : List String) :
    streamUpdates idConv (fragStream fragments) =
      (fragments.filter (fun f => f != "")).map
        (fun f => StreamChunk.update f (some true)) := by
  induction fragments with
  | nil => rfl
  | cons f fs ih =>
    by_cases hf : f = ""
    · subst hf
      simpa [streamUpdates, fragStream, mkChunk, chunkPieces, idConv] using ih
    · simp only [streamUpdates, fragStream, List.map_cons, List.flatMap_cons,
        List.filter_cons, chunkPieces, mkChunk, idConv, hf] at ih ⊢
      simp only [bne_iff_ne, ne_eq, hf, not_false_eq_true, if_true, ite_true]
      simpa [hf] using ih

/-- Claim C7: when the validation-token check fails (the validator returns
a message), `generate` yields exactly that one message and terminates
without calling the generation service. -/
theorem validate_key_failure_short_circuits {α : Type} (conv : α → List String)
    (up : Upstream α) (jd res msg : String) :
    generate conv (some msg) up jd res = ⟨[StreamChunk.text msg], none, []⟩ :=
  rfl

/-- Claim C9: the auth-key check precedes input validation: with blank
inputs, a failing validation still yields the validator message, while the
missing-input prompt is only produced when validation passes. -/
theorem auth_gate_precedes_input_validation {α : Type} (conv : α → List String)
    (up : Upstream α) (jd res : String) (hjd : isBlank jd = true)
    (hres : isBlank res = true) (msg : String) :
    (generate conv (some msg) up jd res).updates = [StreamChunk.text msg] ∧
    (generate conv none up jd res).updates = [StreamChunk.text bothMissingMsg] := by
  exact ⟨rfl, by simp [generate, hjd, hres]⟩

/-- Witness for C9 at blank inputs and a concrete validator message. -/
theorem auth_gate_precedes_input_validation_witness :
    (generate idConv (some "Invalid key") ⟨[], none⟩ "" " ").updates =
        [StreamChunk.text "Invalid key"] ∧
    (generate idConv none ⟨[], none⟩ "" " ").updates =
        [StreamChunk.text bothMissingMsg] :=
  auth_gate_precedes_input_validation idConv ⟨[], none⟩ "" " "
    (by decide) (by decide) "Invalid key"

/-- Claim C8: the clear action ignores the prior state of the three
fields and returns exactly three empty strings. -/
theorem clear_all_resets_fields (prior : String × String × String) :
    clearAction prior = ("", "", "") ∧ clear_all = ("", "", "") :=
  ⟨rfl, rfl⟩

/-- Claim C4: the four-way input gate, decided before any service call:
both blank, only the job description blank, only the resume blank, or
proceed to generation; in the three blank cases no prompt is sent
(`sentPrompt = none`, no network call) and the function returns normally
(it is total, so no exception is raised). -/
theorem input_validation_four_way {α : Type} (conv : α → List String)
    (up : Upstream α) (jd res : String) :
    (isBlank jd = true → isBlank res = true →
      generate conv none up jd res = ⟨[StreamChunk.text bothMissingMsg], none, []⟩) ∧
    (isBlank jd = true → isBlank res = false →
      generate conv none up jd res = ⟨[StreamChunk.text jdMissingMsg], none, []⟩) ∧
    (isBlank jd = false → isBlank res = true →
      generate conv none up jd res = ⟨[StreamChunk.text resumeMissingMsg], none, []⟩) ∧
    (isBlank jd = false → isBlank res = false →
      (generate conv none up jd res).sentPrompt =
        some ⟨systemInstruction, userPrompt jd res⟩) := by
  rcases up with ⟨chunks, raises⟩
  refine ⟨?_, ?_, ?_, ?_⟩ <;> intro h1 h2 <;> cases raises <;> simp [generate, h1, h2]

/-- Witness for C4 in the both-blank case (empty and whitespace-only). -/
theorem input_validation_four_way_witness :
    generate idConv none ⟨[], none⟩ "" " " =
      ⟨[StreamChunk.text bothMissingMsg], none, []⟩ :=
  (input_validation_four_way idConv ⟨[], none⟩ "" " ").1 (by decide) (by decide)

/-- Claim C2: for every sequence of non-empty fragments, the streaming
loop emits exactly one append-kind update per fragment, in arrival order,
with no reordering or merging. -/
theorem generate_one_append_per_fragment (fragments : List String)
    (hne : ∀ f ∈ fragments, f ≠ "") (jd res : String)
    (hjd : isBlank jd = false) (hres : isBlank res = false) :
    (generate idConv none ⟨fragStream fragments, none⟩ jd res).updates =
      fragments.map (fun f => StreamChunk.update f (some true)) := by
  rw [generate_ok idConv (fragStream fragments) jd res hjd hres]
  show streamUpdates idConv (fragStream fragments) = _
  rw [streamUpdates_fragStream]
  have hfilter : fragments.filter (fun f => f != "") = fragments := by
    rw [List.filter_eq_self]
    intro a ha
    simpa using hne a ha
  rw [hfilter]

/-- Witness for C2 at the spec's example ["Hello, ", "World", "!"]. -/
theorem generate_one_append_per_fragment_witness :
    (generate idConv none ⟨fragStream ["Hello, ", "World", "!"], none⟩ "j" "r").updates =
      [StreamChunk.update "Hello, " (some true), StreamChunk.update "World" (some true),
        StreamChunk.update "!" (some true)] := by
  have h := generate_one_append_per_fragment ["Hello, ", "World", "!"]
    (by decide) "j" "r" (by decide) (by decide)
  simpa using h

/-- Claim C3: a chunk with an empty candidate list, a `None` first
candidate, or a first candidate without content yields no update; only
the first candidate of a chunk is consumed; and the fragment sequence
["A", "", "B"] yields exactly the two updates for "A" then "B". -/
theorem chunk_skip_and_first_candidate_only :
    (∀ (α : Type) (conv : α → List String), chunkPieces conv ⟨[]⟩ = []) ∧
    (∀ (α : Type) (conv : α → List String) (rest : List (Option (Candidate α))),
      chunkPieces conv ⟨none :: rest⟩ = []) ∧
    (∀ (α : Type) (conv : α → List String) (rest : List (Option (Candidate α))),
      chunkPieces conv ⟨some ⟨none⟩ :: rest⟩ = []) ∧
    (∀ (α : Type) (conv : α → List String) (c : Option (Candidate α))
      (rest : List (Option (Candidate α))),
      chunkPieces conv ⟨c :: rest⟩ = chunkPieces conv ⟨[c]⟩) ∧
    (generate idConv none ⟨fragStream ["A", "", "B"], none⟩ "j" "r").updates =
      [StreamChunk.update "A" (some true), StreamChunk.update "B" (some true)] := by
  refine ⟨fun α conv => rfl, fun α conv rest => rfl, fun α conv rest => rfl, ?_, by decide⟩
  intro α conv c rest
  cases c with
  | none => rfl
  | some cand =>
    rcases cand with ⟨content⟩
    cases content <;> rfl

/-- Claim C1: when valid inputs reach the streaming loop and the upstream
iterator raises after emitting `chunks`, the yielded sequence is exactly
the updates of the emitted chunks followed by one terminal generic-error
replacement update (whose text is the fixed constant, independent of the
exception), and the exception detail goes to the log, not to the user. -/
theorem generate_midstream_error_single_terminal_update {α : Type}
    (conv : α → List String) (chunks : List (Chunk α)) (exc jd res : String)
    (hjd : isBlank jd = false) (hres : isBlank res = false) :
    (generate conv none ⟨chunks, some exc⟩ jd res).updates =
        streamUpdates conv chunks ++ [StreamChunk.update genericErrorMsg none] ∧
    (generate conv none ⟨chunks, some exc⟩ jd res).logs =
        [("Failed to generate tailored resume", exc)] := by
  rw [generate_raise conv chunks exc jd res hjd hres]
  exact ⟨rfl, rfl⟩

/-- Witness for C1: one emitted fragment, then an exception "boom". -/
theorem generate_midstream_error_single_terminal_update_witness :
    (generate idConv none ⟨fragStream ["Hi"], some "boom"⟩ "j" "r").updates =
        streamUpdates idConv (fragStream ["Hi"]) ++
          [StreamChunk.update genericErrorMsg none] ∧
    (generate idConv none ⟨fragStream ["Hi"], some "boom"⟩ "j" "r").logs =
        [("Failed to generate tailored resume", "boom")] :=
  generate_midstream_error_single_terminal_update idConv (fragStream ["Hi"])
    "boom" "j" "r" (by decide) (by decide)

/-- Counterexample to C5 as stated: after the fragment "A" is displayed
and the upstream raises, the terminal update is a replacement carrying
only the generic error message (`append` key absent), so the resulting
display is the error message alone — the previously displayed "A" is
discarded, not extended or preserved. -/
theorem error_update_discards_displayed_text :
    (generate idConv none ⟨fragStream ["A"], some "boom"⟩ "j" "r").updates =
        [StreamChunk.update "A" (some true),
          StreamChunk.update genericErrorMsg none] ∧
    renderAll (generate idConv none ⟨fragStream ["A"], some "boom"⟩ "j" "r").updates =
        genericErrorMsg ∧
    'A' ∉ (renderAll
        (generate idConv none ⟨fragStream ["A"], some "boom"⟩ "j" "r").updates).toList := by
  refine ⟨by decide, by decide, by decide⟩

/-- Claim C5 (amended): the updates already yielded before the exception
remain unchanged in the output sequence — the failing run yields exactly
the non-failing run's updates on the same emitted chunks — and exactly
one terminal update is appended; that terminal update is a full
replacement carrying only the generic error message, so at the display
level it overwrites the partial text rather than extending it. -/
theorem generate_error_preserves_update_sequence {α : Type}
    (conv : α → List String) (chunks : List (Chunk α)) (exc jd res : String)
    (hjd : isBlank jd = false) (hres : isBlank res = false) :
    (generate conv none ⟨chunks, some exc⟩ jd res).updates =
      (generate conv none ⟨chunks, none⟩ jd res).updates ++
        [StreamChunk.update genericErrorMsg none] := by
  rw [generate_raise conv chunks exc jd res hjd hres,
    generate_ok conv chunks jd res hjd hres]

/-- Witness for the amended C5. -/
theorem generate_error_preserves_update_sequence_witness :
    (generate idConv none ⟨fragStream ["A"], some "boom"⟩ "j" "r").updates =
      (generate idConv none ⟨fragStream ["A"], none⟩ "j" "r").updates ++
        [StreamChunk.update genericErrorMsg none] :=
  generate_error_preserves_update_sequence idConv (fragStream ["A"]) "boom" "j" "r"
    (by decide) (by decide)

/-- Claim C6: the prompt builder is deterministic and pure: the user
message is exactly the labeled concatenation with the raw inputs embedded
unchanged (its length is the inputs' lengths plus the 45 characters of
the fixed template, so nothing is truncated or sanitized), and the
system instruction sent is the fixed constant, independent of the inputs. -/
theorem prompt_builder_embeds_raw_inputs {α : Type} (conv : α → List String)
    (chunks : List (Chunk α)) (jd res : String)
    (hjd : isBlank jd = false) (hres : isBlank res = false) :
    (generate conv none ⟨chunks, none⟩ jd res).sentPrompt =
        some ⟨systemInstruction, userPrompt jd res⟩ ∧
    userPrompt jd res =
        "JOB DESCRIPTION:\n" ++ jd ++ "\n\n" ++
          "CURRENT RESUME TEMPLATE:\n" ++ res ++ "\n" ∧
    (userPrompt jd res).length = jd.length + res.length + 45 := by
  refine ⟨?_, rfl, ?_⟩
  · rw [generate_ok conv chunks jd res hjd hres]
  · have h1 : ("JOB DESCRIPTION:\n" : String).length = 17 := rfl
    have h2 : ("\n\n" : String).length = 2 := rfl
    have h3 : ("CURRENT RESUME TEMPLATE:\n" : String).length = 25 := rfl
    have h4 : ("\n" : String).length = 1 := rfl
    simp only [userPrompt, String.length_append, h1, h2, h3, h4]
    omega

/-- Witness for C6 at concrete inputs. -/
theorem prompt_builder_embeds_raw_inputs_witness :
    (generate idConv none ⟨[], none⟩ "j" "r").sentPrompt =
        some ⟨systemInstruction, userPrompt "j" "r"⟩ ∧
    userPrompt "j" "r" =
        "JOB DESCRIPTION:\n" ++ "j" ++ "\n\n" ++
          "CURRENT RESUME TEMPLATE:\n" ++ "r" ++ "\n" ∧
    (userPrompt "j" "r").length = "j".length + "r".length + 45 :=
  prompt_builder_embeds_raw_inputs idConv [] "j" "r" (by decide) (by decide)

/-- Claim C10: a whitespace-only non-empty piece is not skipped — the
loop filters only falsy (empty) pieces — so it yields one append update;
the hypothesis asks only that the piece is non-empty, so it holds for
" " and for a newline. -/
theorem whitespace_piece_not_skipped (piece jd res : String) (hp : piece ≠ "")
    (hjd : isBlank jd = false) (hres : isBlank res = false) :
    (generate idConv none ⟨fragStream [piece], none⟩ jd res).updates =
      [StreamChunk.update piece (some true)] := by
  rw [generate_ok idConv (fragStream [piece]) jd res hjd hres]
  show streamUpdates idConv (fragStream [piece]) = _
  simp [streamUpdates, fragStream, mkChunk, chunkPieces, idConv, hp]

/-- Witness for C10 at the whitespace-only piece " ". -/
theorem whitespace_piece_not_skipped_witness :
    (generate idConv none ⟨fragStream [" "], none⟩ "j" "r").updates =
      [StreamChunk.update " " (some true)] :=
  whitespace_piece_not_skipped " " "j" "r" (by decide) (by decide) (by decide)

end CVTailor
